import Mathlib

/-!
# Verification of BlockForge-Studio `src/server.py`

A shallow embedding of the development HTTP server in `src/server.py`:
a Python `SimpleHTTPRequestHandler` subclass (`NoCacheHandler`) whose only
custom logic is an `end_headers` override that appends three cache-suppression
headers, plus the module-level startup statements (`os.chdir`, `print`,
`HTTPServer(('', 8000), NoCacheHandler).serve_forever()`).

The custom logic is embedded directly from the source.  The behavior of the
underlying standard library (file resolution, directory listings, 404 pages,
socket binding) is not part of this repository, so it is modelled from the
specification where a claim depends on it; those definitions carry a
`Modelled from the spec:` note in their doc comments.
-/

namespace BlockForge

/-- A single HTTP header as a name/value pair. -/
abbrev Header := String × String

/-- The `Cache-Control` header sent by `NoCacheHandler.end_headers`
(src/server.py line 10). -/
def cacheControlHeader : Header :=
  ("Cache-Control", "no-store, no-cache, must-revalidate, max-age=0")

/-- The `Pragma` header sent by `NoCacheHandler.end_headers`
(src/server.py line 11). -/
def pragmaHeader : Header := ("Pragma", "no-cache")

/-- The `Expires` header sent by `NoCacheHandler.end_headers`
(src/server.py line 12). -/
def expiresHeader : Header := ("Expires", "0")

/-- The three headers added to every response, in the order the override
sends them. -/
def noCacheHeaders : List Header := [cacheControlHeader, pragmaHeader, expiresHeader]

/-- The response-header buffer of the base handler: `send_header` appends to
the buffered list; `end_headers` emits the header-block terminator. -/
structure HeaderBuffer where
  headers : List Header
  terminated : Bool
deriving DecidableEq, Repr

/-- `BaseHTTPRequestHandler.send_header`: buffers one more header after all
headers buffered so far. -/
def send_header (buf : HeaderBuffer) (name value : String) : HeaderBuffer :=
  { buf with headers := buf.headers ++ [(name, value)] }

/-- `BaseHTTPRequestHandler.end_headers` (the `super()` call on
src/server.py line 13): emits the blank-line terminator that closes the
header block, leaving the buffered headers untouched. -/
def base_end_headers (buf : HeaderBuffer) : HeaderBuffer :=
  { buf with terminated := true }

/-- `NoCacheHandler.end_headers` (src/server.py lines 9-13): sends the three
no-cache headers, then delegates to the base implementation to terminate the
header block. -/
def NoCacheHandler.end_headers (buf : HeaderBuffer) : HeaderBuffer :=
  base_end_headers
    (send_header
      (send_header
        (send_header buf "Cache-Control" "no-store, no-cache, must-revalidate, max-age=0")
        "Pragma" "no-cache")
      "Expires" "0")

/-- A node of the served directory tree: a regular file with its contents, or
a directory with the names of its entries. -/
inductive FsNode where
  | file (contents : String)
  | dir (entries : List String)
deriving DecidableEq, Repr

/-- A finite model of the filesystem under the served root: an association
list from request paths to nodes. -/
abbrev FileSystem := List (String × FsNode)

/-- Look a request path up in the filesystem model. -/
def lookupPath (fs : FileSystem) (p : String) : Option FsNode :=
  match fs with
  | [] => none
  | (q, n) :: rest => if q = p then some n else lookupPath rest p

/-- An HTTP response: status code, header list in emission order, body. -/
structure Response where
  status : Nat
  headers : List Header
  body : String
deriving DecidableEq, Repr

/-- Modelled from the spec: the content type the base library infers from the
file extension (§4.1 fixes only that one is inferred, not the table). -/
def contentType (path : String) : String :=
  if path.endsWith ".html" then "text/html" else "application/octet-stream"

/-- Modelled from the spec: the generated directory listing page of the base
library, which is not part of this repository.  The spec fixes only that a
listing of the directory is generated, so it is rendered here as the entry
names joined by newlines. -/
def listingBody (entries : List String) : String :=
  String.intercalate "\n" entries

/-- Modelled from the spec: the default error page body of the base library. -/
def errorBody (status : Nat) : String :=
  "Error " ++ toString status

/-- Modelled from the spec: the file resolution of the base library handler
`http.server.SimpleHTTPRequestHandler`, which is not part of this repository
(§4.1): a path mapping to a readable file returns its bytes with status 200
and a content type inferred from the extension; a path mapping to a directory
returns the configured index file if present, else a generated listing; a
path with no mapping returns status 404 with the library's error page. -/
def baseResponse (fs : FileSystem) (path : String) : Response :=
  match lookupPath fs path with
  | some (.file c) =>
      { status := 200, headers := [("Content-Type", contentType path)], body := c }
  | some (.dir entries) =>
      match lookupPath fs (path ++ "/index.html") with
      | some (.file c) =>
          { status := 200, headers := [("Content-Type", "text/html")], body := c }
      | _ =>
          { status := 200, headers := [("Content-Type", "text/html")],
            body := listingBody entries }
  | none =>
      { status := 404, headers := [("Content-Type", "text/html")],
        body := errorBody 404 }

/-- The response the server produces for one request: the base handler
resolves the path and buffers its headers, and finalising the response goes
through the overridden `NoCacheHandler.end_headers`, which appends the three
no-cache headers before the terminator. -/
def serveRequest (fs : FileSystem) (path : String) : Response :=
  let b := baseResponse fs path
  { b with headers := (NoCacheHandler.end_headers ⟨b.headers, false⟩).headers }

/-- An observable effect of one module-level statement of the script. -/
inductive Effect where
  | chdirTo (target : String)
  | consolePrint (msg : String)
  | bindSocket (host : String) (port : Nat)
  | serveForever
deriving DecidableEq, Repr

/-- The literal string printed on startup (src/server.py line 15). -/
def startupMessage : String := "Server running at http://localhost:8000"

/-- The URL the server is reachable at, named inside `startupMessage`. -/
def listeningURL : String := "http://localhost:8000"

/-- The module-level statements of src/server.py in execution order,
parameterised by the directory containing the script: line 6 changes the
working directory to the script's directory, line 15 prints the startup
message, line 16 constructs `HTTPServer(('', 8000), NoCacheHandler)` (binding
the socket) and calls `serve_forever()`.  The class definition on lines 8-13
has no runtime effect at import time. -/
def scriptTrace (scriptDir : String) : List Effect :=
  [.chdirTo scriptDir,
   .consolePrint startupMessage,
   .bindSocket "" 8000,
   .serveForever]

/-- The observable state of the process while the script's module-level
statements run. -/
structure ProcState where
  cwd : String
  printed : List String
  boundPort : Option Nat
  crashed : Bool
  servingPort : Option Nat
deriving DecidableEq, Repr

/-- The state of a fresh process invoked from `invokeDir`. -/
def initState (invokeDir : String) : ProcState :=
  { cwd := invokeDir, printed := [], boundPort := none,
    crashed := false, servingPort := none }

/-- Execute one effect.  Modelled from the spec for `bindSocket`: binding
while the port is already in use raises `OSError`; the script installs no
handler, so the process crashes (§4.1 failure semantics, §7). -/
def stepEffect (portInUse : Bool) (s : ProcState) : Effect → ProcState
  | .chdirTo d => { s with cwd := d }
  | .consolePrint m => { s with printed := s.printed ++ [m] }
  | .bindSocket _ p =>
      if portInUse then { s with crashed := true } else { s with boundPort := some p }
  | .serveForever => { s with servingPort := s.boundPort }

/-- Run a list of effects in order; a crash (unhandled exception) stops
execution of the remaining statements. -/
def runEffects (portInUse : Bool) : List Effect → ProcState → ProcState
  | [], s => s
  | e :: rest, s =>
      if s.crashed then s else runEffects portInUse rest (stepEffect portInUse s e)

/-- Run the whole script from a fresh process. -/
def runScript (scriptDir invokeDir : String) (portInUse : Bool) : ProcState :=
  runEffects portInUse (scriptTrace scriptDir) (initState invokeDir)

/-- The configuration the program derives from its command line and
environment: src/server.py reads neither `sys.argv` nor `os.environ`; the
host `''` (all interfaces) and port `8000` are hardcoded on line 16. -/
def programConfig (_args : List String) (_env : List (String × String)) :
    String × Nat :=
  ("", 8000)

/-- Predicate picking out the `chdirTo` effects of a trace. -/
def Effect.isChdir : Effect → Bool
  | .chdirTo _ => true
  | _ => false

/-- Predicate picking out the `consolePrint` effects of a trace. -/
def Effect.isPrint : Effect → Bool
  | .consolePrint _ => true
  | _ => false

/-- Predicate picking out the `bindSocket` effects of a trace. -/
def Effect.isBind : Effect → Bool
  | .bindSocket _ _ => true
  | _ => false

/-- Finalising a response through the overridden `end_headers` appends the
three no-cache headers after the base handler's buffered headers. -/
theorem serveRequest_headers_eq (fs : FileSystem) (path : String) :
    (serveRequest fs path).headers = (baseResponse fs path).headers ++ noCacheHeaders := by
  simp [serveRequest, NoCacheHandler.end_headers, send_header, base_end_headers,
    noCacheHeaders, cacheControlHeader, pragmaHeader, expiresHeader]

/-- Every branch of the modelled base handler buffers exactly one
`Content-Type` header. -/
theorem baseResponse_headers_shape (fs : FileSystem) (path : String) :
    ∃ v, (baseResponse fs path).headers = [("Content-Type", v)] := by
  unfold baseResponse
  split
  · exact ⟨contentType path, rfl⟩
  · split
    · exact ⟨"text/html", rfl⟩
    · exact ⟨"text/html", rfl⟩
  · exact ⟨"text/html", rfl⟩

/-- C1: every response produced by the server, successful or error, carries
exactly `Cache-Control: no-store, no-cache, must-revalidate, max-age=0`,
`Pragma: no-cache` and `Expires: 0` among its headers. -/
theorem every_response_has_exact_no_cache_headers (fs : FileSystem) (path : String) :
    (serveRequest fs path).headers.filter (fun h => h.1 = "Cache-Control")
        = [("Cache-Control", "no-store, no-cache, must-revalidate, max-age=0")] ∧
    (serveRequest fs path).headers.filter (fun h => h.1 = "Pragma")
        = [("Pragma", "no-cache")] ∧
    (serveRequest fs path).headers.filter (fun h => h.1 = "Expires")
        = [("Expires", "0")] := by
  obtain ⟨v, hv⟩ := baseResponse_headers_shape fs path
  rw [serveRequest_headers_eq, hv]
  refine ⟨?_, ?_, ?_⟩ <;>
    simp [noCacheHeaders, cacheControlHeader, pragmaHeader, expiresHeader, List.filter]

/-- C2: a path resolving to a readable file is answered with status 200 and a
body identical to the file's contents, with the no-cache headers present. -/
theorem file_request_returns_200_with_contents (fs : FileSystem) (path c : String)
    (h : lookupPath fs path = some (FsNode.file c)) :
    (serveRequest fs path).status = 200 ∧
    (serveRequest fs path).body = c ∧
    cacheControlHeader ∈ (serveRequest fs path).headers := by
  refine ⟨?_, ?_, ?_⟩
  · simp [serveRequest, baseResponse, h]
  · simp [serveRequest, baseResponse, h]
  · rw [serveRequest_headers_eq]
    simp [noCacheHeaders]

/-- C2 witness: a root containing `index.html` with content `"hello"` answers
a GET to `/index.html` with status 200 and body `hello`. -/
theorem file_request_returns_200_with_contents_witness :
    lookupPath [("/index.html", FsNode.file "hello")] "/index.html"
        = some (FsNode.file "hello") ∧
    ((serveRequest [("/index.html", FsNode.file "hello")] "/index.html").status = 200 ∧
     (serveRequest [("/index.html", FsNode.file "hello")] "/index.html").body = "hello" ∧
     cacheControlHeader ∈
       (serveRequest [("/index.html", FsNode.file "hello")] "/index.html").headers) :=
  ⟨by decide, file_request_returns_200_with_contents _ _ _ (by decide)⟩

/-- C3: a path mapping to neither a file nor a directory is answered with
status 404, and that 404 response still carries the three no-cache headers. -/
theorem missing_path_returns_404_with_no_cache_headers (fs : FileSystem) (path : String)
    (h : lookupPath fs path = none) :
    (serveRequest fs path).status = 404 ∧
    cacheControlHeader ∈ (serveRequest fs path).headers ∧
    pragmaHeader ∈ (serveRequest fs path).headers ∧
    expiresHeader ∈ (serveRequest fs path).headers := by
  refine ⟨by simp [serveRequest, baseResponse, h], ?_, ?_, ?_⟩ <;>
    rw [serveRequest_headers_eq] <;> simp [noCacheHeaders]

/-- C3 witness: requesting `/missing` against a root holding only `/a`
yields a 404 carrying the three no-cache headers. -/
theorem missing_path_returns_404_with_no_cache_headers_witness :
    lookupPath [("/a", FsNode.file "x")] "/missing" = none ∧
    ((serveRequest [("/a", FsNode.file "x")] "/missing").status = 404 ∧
     cacheControlHeader ∈ (serveRequest [("/a", FsNode.file "x")] "/missing").headers ∧
     pragmaHeader ∈ (serveRequest [("/a", FsNode.file "x")] "/missing").headers ∧
     expiresHeader ∈ (serveRequest [("/a", FsNode.file "x")] "/missing").headers) :=
  ⟨by decide, missing_path_returns_404_with_no_cache_headers _ _ (by decide)⟩

/-- C4: a path mapping to a directory is answered with the directory's index
file if one is present, else with the generated listing, and the response
carries the three no-cache headers. -/
theorem directory_request_returns_listing_or_index (fs : FileSystem) (path : String)
    (es : List String) (h : lookupPath fs path = some (FsNode.dir es)) :
    (serveRequest fs path).status = 200 ∧
    (serveRequest fs path).body =
      (match lookupPath fs (path ++ "/index.html") with
       | some (FsNode.file c) => c
       | _ => listingBody es) ∧
    cacheControlHeader ∈ (serveRequest fs path).headers ∧
    pragmaHeader ∈ (serveRequest fs path).headers ∧
    expiresHeader ∈ (serveRequest fs path).headers := by
  have hmem : cacheControlHeader ∈ (serveRequest fs path).headers ∧
      pragmaHeader ∈ (serveRequest fs path).headers ∧
      expiresHeader ∈ (serveRequest fs path).headers := by
    refine ⟨?_, ?_, ?_⟩ <;> rw [serveRequest_headers_eq] <;> simp [noCacheHeaders]
  refine ⟨?_, ?_, hmem.1, hmem.2.1, hmem.2.2⟩ <;>
  · cases h2 : lookupPath fs (path ++ "/index.html") with
    | none => simp [serveRequest, baseResponse, h, h2]
    | some n =>
        cases n with
        | file c => simp [serveRequest, baseResponse, h, h2]
        | dir es2 => simp [serveRequest, baseResponse, h, h2]

/-- C4 witness: `/docs` is a directory containing `index.html`, so the
response is its index file `welcome` with status 200 and the headers. -/
theorem directory_request_returns_listing_or_index_witness :
    lookupPath
        [("/docs", FsNode.dir ["index.html"]),
         ("/docs/index.html", FsNode.file "welcome")] "/docs"
      = some (FsNode.dir ["index.html"]) ∧
    ((serveRequest
        [("/docs", FsNode.dir ["index.html"]),
         ("/docs/index.html", FsNode.file "welcome")] "/docs").status = 200 ∧
     (serveRequest
        [("/docs", FsNode.dir ["index.html"]),
         ("/docs/index.html", FsNode.file "welcome")] "/docs").body =
       (match lookupPath
           [("/docs", FsNode.dir ["index.html"]),
            ("/docs/index.html", FsNode.file "welcome")] ("/docs" ++ "/index.html") with
        | some (FsNode.file c) => c
        | _ => listingBody ["index.html"]) ∧
     cacheControlHeader ∈ (serveRequest
        [("/docs", FsNode.dir ["index.html"]),
         ("/docs/index.html", FsNode.file "welcome")] "/docs").headers ∧
     pragmaHeader ∈ (serveRequest
        [("/docs", FsNode.dir ["index.html"]),
         ("/docs/index.html", FsNode.file "welcome")] "/docs").headers ∧
     expiresHeader ∈ (serveRequest
        [("/docs", FsNode.dir ["index.html"]),
         ("/docs/index.html", FsNode.file "welcome")] "/docs").headers) :=
  ⟨by decide,
   directory_request_returns_listing_or_index
     [("/docs", FsNode.dir ["index.html"]), ("/docs/index.html", FsNode.file "welcome")]
     "/docs" ["index.html"] (by decide)⟩

/-- C5: when port 8000 is already in use at startup, the process crashes
during binding — before serving begins — and never serves on any port,
whatever directories are involved. -/
theorem bind_failure_is_fatal (scriptDir invokeDir : String) :
    (runScript scriptDir invokeDir true).crashed = true ∧
    (runScript scriptDir invokeDir true).servingPort = none ∧
    (runScript scriptDir invokeDir true).boundPort = none :=
  ⟨rfl, rfl, rfl⟩

/-- C6: the program consults neither command-line arguments nor environment
variables: its host/port configuration is the constant `("", 8000)`, the
trace binds exactly that address, and a plain run ends up serving on port
8000 unconditionally. -/
theorem config_is_hardcoded (args : List String) (env : List (String × String))
    (scriptDir invokeDir : String) :
    programConfig args env = ("", 8000) ∧
    Effect.bindSocket "" 8000 ∈ scriptTrace scriptDir ∧
    (runScript scriptDir invokeDir false).servingPort = some 8000 :=
  ⟨rfl, by simp [scriptTrace], rfl⟩

/-- C7: the script performs exactly one working-directory change, it is the
very first statement executed (hence before any request is served), and after
startup the working directory is the script's own directory regardless of the
directory the program was invoked from. -/
theorem chdir_to_script_dir_once_at_startup (scriptDir invokeDir : String)
    (portInUse : Bool) :
    (scriptTrace scriptDir).countP Effect.isChdir = 1 ∧
    (scriptTrace scriptDir).head? = some (Effect.chdirTo scriptDir) ∧
    (runScript scriptDir invokeDir portInUse).cwd = scriptDir :=
  ⟨rfl, rfl, by cases portInUse <;> rfl⟩

/-- C8: the script prints exactly one console message on startup, and that
message names the listening URL. -/
theorem single_startup_message_names_url (scriptDir invokeDir : String)
    (portInUse : Bool) :
    (scriptTrace scriptDir).countP Effect.isPrint = 1 ∧
    (runScript scriptDir invokeDir portInUse).printed = [startupMessage] ∧
    startupMessage = "Server running at " ++ listeningURL :=
  ⟨rfl, by cases portInUse <;> rfl, rfl⟩

/-- C9: the overridden `end_headers` appends the three no-cache headers after
every header already buffered by the base handler and then terminates the
header block; every previously buffered header survives unchanged. -/
theorem end_headers_appends_and_preserves (buf : HeaderBuffer) :
    (NoCacheHandler.end_headers buf).headers = buf.headers ++ noCacheHeaders ∧
    (NoCacheHandler.end_headers buf).terminated = true := by
  constructor
  · simp [NoCacheHandler.end_headers, send_header, base_end_headers, noCacheHeaders,
      cacheControlHeader, pragmaHeader, expiresHeader]
  · rfl

/-- C10: the startup message is printed before the socket-binding statement
runs, so it is emitted even in the run where binding port 8000 fails and the
process terminates at startup. -/
theorem startup_message_precedes_bind (scriptDir invokeDir : String) :
    (scriptTrace scriptDir).findIdx Effect.isPrint <
      (scriptTrace scriptDir).findIdx Effect.isBind ∧
    (runScript scriptDir invokeDir true).printed = [startupMessage] ∧
    (runScript scriptDir invokeDir true).crashed = true := by
  exact ⟨Nat.one_lt_two, rfl, rfl⟩

end BlockForge
